import Mathlib

/-!
Verification of the `Grand_server` form-submission service (`src/index.py`)
against its natural-language specification.

The service is a single-file FastAPI application: a pydantic validation
schema (`FormData`), one SQLAlchemy table (`grandeur`), a per-request
session provider (`get_db`) and three HTTP handlers (`root`, `submit_form`,
`health_check`).  We embed the data model and the request handling shallowly:
the database is a list of rows plus a monotonically assigned next identifier,
a request is a pure function from the incoming payload and the pre-request
database state to a response, the resulting database state, the log lines
written, and an ordered event trace.  Storage-layer failures (SQLAlchemy
errors) are injected through an explicit parameter naming the operation that
fails, since they are external nondeterminism.
-/

set_option autoImplicit false

namespace GrandServer

/-- Python `str.strip()` whitespace set (the characters stripped from string
fields by pydantic's `str_strip_whitespace=True` in `FormData.model_config`,
src/index.py line 51). -/
def isPyWhitespace (c : Char) : Bool :=
  c = ' ' || c = '\t' || c = '\n' || c = '\r' || c = '\x0b' || c = '\x0c'

/-- Strip leading and trailing whitespace from a list of characters. -/
def pyStripList (l : List Char) : List Char :=
  ((l.dropWhile isPyWhitespace).reverse.dropWhile isPyWhitespace).reverse

/-- Python `str.strip()` on a string, as applied by pydantic's
`str_strip_whitespace=True` to every string field before any other
validation. -/
def pyStrip (s : String) : String :=
  String.mk (pyStripList s.toList)

/-- The regex `^\d{10}$` of `FormData.number` (src/index.py line 55):
exactly 10 consecutive decimal digit characters. -/
def numberPatternOk (s : String) : Bool :=
  s.toList.length = 10 && s.toList.all Char.isDigit

/-- Split a character list at every occurrence of `sep` (the list-level
analogue of `str.split(sep)`). -/
def splitOnChar (sep : Char) : List Char → List (List Char)
  | [] => [[]]
  | c :: cs =>
    if c = sep then [] :: splitOnChar sep cs
    else
      match splitOnChar sep cs with
      | [] => [[c]]
      | h :: t => (c :: h) :: t

/-- Modelled from the spec: `EmailStr` delegates to the external
`email-validator` package (not part of this repository); the spec only
requires "standard email address syntax" and that inputs whose email lacks
an '@'-delimited domain are rejected.  We model the check as: exactly one
'@', a non-empty local part without whitespace, and a non-empty domain
without whitespace containing a '.' that is neither first nor last. -/
def isValidEmail (s : String) : Bool :=
  match splitOnChar '@' s.toList with
  | [loc, dom] =>
    !loc.isEmpty && !dom.isEmpty &&
    dom.contains '.' && dom.head? ≠ some '.' &&
    dom.getLast? ≠ some '.' && !loc.any isPyWhitespace &&
    !dom.any isPyWhitespace
  | _ => false

/-- The raw request body of POST /submit-form: three string fields as parsed
from JSON (presence of all three fields is assumed; a missing field is a
422 upstream of everything modelled here). -/
structure RawForm where
  name : String
  email : String
  number : String
deriving Repr, DecidableEq

/-- A validated submission, the successful output of the pydantic model
`FormData` (src/index.py lines 50-55): fields carry the stripped values. -/
structure FormData where
  name : String
  email : String
  number : String
deriving Repr, DecidableEq

/-- Field names, used to report which field failed validation. -/
inductive FieldName
  | name
  | email
  | number
deriving Repr, DecidableEq

/-- The pydantic validation of `FormData` (src/index.py lines 50-55):
`str_strip_whitespace=True` strips every string field first; then
`name` must have length between 1 and 255, `email` must be a valid email
address, and `number` must match `^\d{10}$`.  All failing fields are
reported, as pydantic does. -/
def validateForm (raw : RawForm) : Except (List FieldName) FormData :=
  let n := pyStrip raw.name
  let e := pyStrip raw.email
  let num := pyStrip raw.number
  let errs : List FieldName :=
    (if n.length < 1 || n.length > 255 then [FieldName.name] else []) ++
    (if !isValidEmail e then [FieldName.email] else []) ++
    (if !numberPatternOk num then [FieldName.number] else [])
  if errs.isEmpty then Except.ok ⟨n, e, num⟩ else Except.error errs

/-- A stored row of the `grandeur` table (src/index.py lines 40-47).
`created_at` is wall-clock time and is not modelled; `email` is a column
declared `nullable=False`, and in this embedding it is a total `String`. -/
structure Row where
  id : Nat
  name : String
  email : String
  phone_number : String
deriving Repr, DecidableEq

/-- The state of the `grandeur` table: the committed rows and the next
identifier the storage backend will assign (identifiers are monotonically
assigned by storage, starting at 1). -/
structure DB where
  rows : List Row
  nextId : Nat
deriving Repr, DecidableEq

/-- The empty database produced by the table bootstrap
(`Base.metadata.create_all`, src/index.py line 86). -/
def DB.initial : DB := ⟨[], 1⟩

/-- Well-formedness of the table state: every stored identifier is below the
next identifier to be assigned, and identifiers are positive.  Holds for
`DB.initial` and is preserved by every request (proved below). -/
def DB.wf (db : DB) : Prop :=
  1 ≤ db.nextId ∧ ∀ r ∈ db.rows, r.id < db.nextId

/-- Response bodies the service can produce.  `detail d` is an
`HTTPException` payload delivered to the caller; `unhandled msg` is the
framework's generic 500 for an exception that escaped the whole route (the
argument records which exception escaped — model bookkeeping, the HTTP body
text is the framework's fixed server-error message); `serverError` is the
framework's plain 500 produced when a dependency with yield caught the
handler's exception without re-raising, leaving the route with no response
object — its body never carries the handler's detail. -/
inductive Body
  | text (s : String)
  | submitOk (message : String) (record_id : Nat)
  | validationErr (fields : List FieldName)
  | detail (d : String)
  | health (status : String)
  | unhandled (msg : String)
  | serverError
deriving Repr, DecidableEq

/-- An HTTP response: status code and body. -/
structure Response where
  status : Nat
  body : Body
deriving Repr, DecidableEq

/-- Events of a request, in the order they happen: session acquisition,
ORM operations, log writes, the handler raising an `HTTPException` with a
status and detail, session teardown, and the production of the response. -/
inductive Ev
  | acquire
  | add
  | commitS
  | refresh
  | logInfo (msg : String)
  | logError (msg : String)
  | raiseHTTP (status : Nat) (detail : String)
  | rollback
  | close
  | respond (status : Nat)
deriving Repr, DecidableEq

/-- Result of handling one request: the response, the table state after the
request, the log lines written during the request, and the event trace. -/
structure ReqResult where
  response : Response
  db : DB
  log : List String
  events : List Ev
deriving Repr, DecidableEq

/-- Injected storage-layer (SQLAlchemy) failure for POST /submit-form: either
no failure, or a failure with internal message `msg` raised at record
construction, at `db.add`, at `db.commit`, or at `db.refresh`
(src/index.py lines 105-113). -/
inductive DbFailure
  | ok
  | atConstruct (msg : String)
  | atAdd (msg : String)
  | atCommit (msg : String)
  | atRefresh (msg : String)
deriving Repr, DecidableEq

/-- The generic client-facing message of the SQLAlchemy error branch
(src/index.py line 125). -/
def dbErrorDetail : String := "Database error occurred while submitting the form"

/-- POST /submit-form (src/index.py lines 96-132), with the session provider
`get_db` (lines 74-82) inlined around the handler body.  Control flow,
faithful to the source:
* FastAPI validates the body against `FormData` before calling the handler;
  a validation failure is a 422 with field errors, the handler never runs,
  and the session (acquired while solving dependencies, lazily — no storage
  access happens) is committed empty and closed by `get_db`.
* On success the handler builds a `Grandeur` record from the validated
  fields verbatim, adds it, commits (storage assigns `nextId` as the id),
  refreshes to read the id back, logs an info line, and returns 201 with
  the success message and the record id; `get_db` then runs its own
  `db.commit()` (nothing pending) and closes.
* A SQLAlchemy error at any of the four storage operations is caught by the
  handler's `except SQLAlchemyError`, logged with its internal message, and
  re-raised as `HTTPException(500, dbErrorDetail)` (event `raiseHTTP`).
  That exception unwinds into `get_db`, whose bare `except` rolls the
  session back (without logging) and does not re-raise; `finally` closes
  the session.  Because the exception was swallowed inside the dependency
  stack, the route produces no response object, and the framework answers
  with a plain 500 server error (`Body.serverError`) that never carries
  `dbErrorDetail` — modelled from the spec's framework assumptions for
  FastAPI ≥ 0.106 (not part of this repository), where dependency teardown,
  rollback included, runs before the response is sent.  A failure at
  `refresh` happens after the commit, so the row is already persisted and
  the rollback is a no-op. -/
def submit_form (raw : RawForm) (fail : DbFailure) (db0 : DB) : ReqResult :=
  match validateForm raw with
  | Except.error errs =>
    { response := ⟨422, Body.validationErr errs⟩
      db := db0
      log := []
      events := [Ev.acquire, Ev.commitS, Ev.close, Ev.respond 422] }
  | Except.ok d =>
    match fail with
    | DbFailure.ok =>
      let newRow : Row := ⟨db0.nextId, d.name, d.email, d.number⟩
      let db1 : DB := ⟨db0.rows ++ [newRow], db0.nextId + 1⟩
      let okMsg := "Form submitted successfully. Record ID: " ++ toString newRow.id
      { response := ⟨201, Body.submitOk "Form submitted successfully!" newRow.id⟩
        db := db1
        log := [okMsg]
        events := [Ev.acquire, Ev.add, Ev.commitS, Ev.refresh,
                   Ev.logInfo okMsg, Ev.commitS, Ev.close, Ev.respond 201] }
    | DbFailure.atConstruct msg =>
      { response := ⟨500, Body.serverError⟩
        db := db0
        log := ["Database error: " ++ msg]
        events := [Ev.acquire, Ev.logError ("Database error: " ++ msg),
                   Ev.raiseHTTP 500 dbErrorDetail,
                   Ev.rollback, Ev.close, Ev.respond 500] }
    | DbFailure.atAdd msg =>
      { response := ⟨500, Body.serverError⟩
        db := db0
        log := ["Database error: " ++ msg]
        events := [Ev.acquire, Ev.add, Ev.logError ("Database error: " ++ msg),
                   Ev.raiseHTTP 500 dbErrorDetail,
                   Ev.rollback, Ev.close, Ev.respond 500] }
    | DbFailure.atCommit msg =>
      { response := ⟨500, Body.serverError⟩
        db := db0
        log := ["Database error: " ++ msg]
        events := [Ev.acquire, Ev.add, Ev.commitS,
                   Ev.logError ("Database error: " ++ msg),
                   Ev.raiseHTTP 500 dbErrorDetail,
                   Ev.rollback, Ev.close, Ev.respond 500] }
    | DbFailure.atRefresh msg =>
      let newRow : Row := ⟨db0.nextId, d.name, d.email, d.number⟩
      let db1 : DB := ⟨db0.rows ++ [newRow], db0.nextId + 1⟩
      { response := ⟨500, Body.serverError⟩
        db := db1
        log := ["Database error: " ++ msg]
        events := [Ev.acquire, Ev.add, Ev.commitS, Ev.refresh,
                   Ev.logError ("Database error: " ++ msg),
                   Ev.raiseHTTP 500 dbErrorDetail,
                   Ev.rollback, Ev.close, Ev.respond 500] }

/-- GET / (src/index.py lines 92-94): a fixed greeting, no storage access. -/
def root (db0 : DB) : ReqResult :=
  { response := ⟨200, Body.text "Hello World!"⟩
    db := db0
    log := []
    events := [Ev.respond 200] }

/-- GET /health (src/index.py lines 135-145), with `get_db` inlined.  The
`try` body is the bare statement `return {"status": "healthy"}`, which
cannot raise, so the `except` branch returning 503 is unreachable whenever
the handler runs.  The parameter models `SessionLocal()` itself raising
(the only step of the "liveness attempt" that could fail): that call sits
outside `get_db`'s `try`, so the exception escapes the dependency and the
handler never runs.  Modelled from the spec for that escape: FastAPI (not
part of this repository) converts an exception that escapes the dependency
stack into a generic 500 response. -/
def health_check (acquireRaises : Option String) (db0 : DB) : ReqResult :=
  match acquireRaises with
  | some msg =>
    { response := ⟨500, Body.unhandled msg⟩
      db := db0
      log := []
      events := [Ev.respond 500] }
  | none =>
    { response := ⟨200, Body.health "healthy"⟩
      db := db0
      log := []
      events := [Ev.acquire, Ev.commitS, Ev.close, Ev.respond 200] }

/-- True when a rollback event occurs in the trace strictly before any
response is produced. -/
def rollbackBeforeRespond : List Ev → Bool
  | [] => false
  | Ev.rollback :: _ => true
  | Ev.respond _ :: _ => false
  | _ :: t => rollbackBeforeRespond t

/-- An exception crossing the session provider: either an `HTTPException`
raised deliberately by a handler, or any other error. -/
inductive Exn
  | httpException (status : Nat) (detail : String)
  | other (msg : String)
deriving Repr, DecidableEq

/-- The state of one ORM session: the committed table state, plus rows added
to the session but not yet flushed (identifiers are assigned by storage at
commit time). -/
structure SessionState where
  committed : DB
  pending : List FormData
deriving Repr, DecidableEq

/-- Session commit: flush every pending row, assigning consecutive
identifiers from `nextId`, and clear the pending set. -/
def commitSession (s : SessionState) : DB :=
  s.pending.foldl
    (fun db d => ⟨db.rows ++ [⟨db.nextId, d.name, d.email, d.number⟩], db.nextId + 1⟩)
    s.committed

/-- What one handler body does with the session it was handed: the session
state it leaves behind, its outcome (a return value or a raised exception),
and the log lines it wrote. -/
structure BodyResult (α : Type) where
  sess : SessionState
  outcome : Except Exn α
  logs : List String

/-- The observable result of running a handler body under the session
provider: the value produced (none when the body raised), the resulting
table state, all log lines written during the request, whether the
provider rolled back, whether it ran its final `db.commit()`, whether the
session was closed, and the exception the provider caught without
re-raising (none when nothing was raised). -/
structure SessionRun (α : Type) where
  value : Option α
  db : DB
  log : List String
  rolledBack : Bool
  finalCommit : Bool
  closed : Bool
  caughtNotReraised : Option Exn

/-- The session provider `get_db` (src/index.py lines 74-82) as a combinator
over an arbitrary handler body: acquire a fresh session over the current
table state, run the body, then — `try`/`except`/`finally` — commit the
session if the body returned, roll it back if the body raised (the bare
`except` writes no log line and does not re-raise, so the exception is
swallowed), and close the session on every route. -/
def get_db {α : Type} (body : SessionState → BodyResult α) (db0 : DB) : SessionRun α :=
  let r := body ⟨db0, []⟩
  match r.outcome with
  | Except.ok v =>
    { value := some v
      db := commitSession r.sess
      log := r.logs
      rolledBack := false
      finalCommit := true
      closed := true
      caughtNotReraised := none }
  | Except.error e =>
    { value := none
      db := r.sess.committed
      log := r.logs
      rolledBack := true
      finalCommit := false
      closed := true
      caughtNotReraised := some e }

/-- The row-content invariant of the `grandeur` table (claim C9): the name is
non-empty and at most 255 characters, and the phone number is exactly 10
digit characters.  (`email` is a column declared `nullable=False`; in this
embedding it is a total `String`, so non-nullness is a typing fact.) -/
def rowOk (r : Row) : Prop :=
  r.name ≠ "" ∧ r.name.length ≤ 255 ∧
  r.phone_number.length = 10 ∧ r.phone_number.toList.all Char.isDigit = true

/-- Every row of the table satisfies the content invariant. -/
def DB.inv (db : DB) : Prop := ∀ r ∈ db.rows, rowOk r

/-- `db1` keeps every row of `db0`, in place and unchanged, possibly
appending new rows after them. -/
def preservesRows (db0 db1 : DB) : Prop := ∃ tail, db1.rows = db0.rows ++ tail

/-- Python truthiness of the `DATABASE_URL` value: `if not DATABASE_URL`
(src/index.py line 25) treats both `None` (absent) and the empty string as
missing. -/
def databaseUrlCheck (v : Option String) : Except String String :=
  match v with
  | none => Except.error "DATABASE_URL environment variable is missing"
  | some url =>
    if url = "" then Except.error "DATABASE_URL environment variable is missing"
    else Except.ok url

/-- Module initialization (src/index.py lines 24-62): read `DATABASE_URL`
from the environment; if the truthiness check fails, raise before anything
else — in particular before `app = FastAPI(...)` is evaluated, so no
application object exists and no port is ever bound.  On success the
engine, session factory and application are constructed.  `Except.ok`
carries the connection string the engine was built from. -/
def startup (env : String → Option String) : Except String String :=
  databaseUrlCheck (env "DATABASE_URL")

/-! ## Helper lemmas -/

theorem dropWhile_eq_self_of_none (p : Char → Bool) (l : List Char)
    (h : ∀ c ∈ l, p c = false) : l.dropWhile p = l := by
  cases l with
  | nil => rfl
  | cons c cs => simp [List.dropWhile, h c (List.mem_cons_self c cs)]

theorem dropWhile_eq_nil_of_all (p : Char → Bool) (l : List Char)
    (h : ∀ c ∈ l, p c = true) : l.dropWhile p = [] := by
  induction l with
  | nil => rfl
  | cons c cs ih =>
    simp only [List.dropWhile, h c (List.mem_cons_self c cs)]
    exact ih fun x hx => h x (List.mem_cons_of_mem c hx)

theorem pyStripList_eq_self (l : List Char)
    (h : ∀ c ∈ l, isPyWhitespace c = false) : pyStripList l = l := by
  unfold pyStripList
  rw [dropWhile_eq_self_of_none _ _ h,
      dropWhile_eq_self_of_none _ _ (fun c hc => h c (List.mem_reverse.mp hc)),
      List.reverse_reverse]

theorem pyStripList_eq_nil (l : List Char)
    (h : ∀ c ∈ l, isPyWhitespace c = true) : pyStripList l = [] := by
  unfold pyStripList
  rw [dropWhile_eq_nil_of_all _ _ h]
  rfl

theorem pyStrip_eq_self (s : String)
    (h : ∀ c ∈ s.toList, isPyWhitespace c = false) : pyStrip s = s := by
  cases s with
  | mk data => exact congrArg String.mk (pyStripList_eq_self data h)

theorem isPyWhitespace_eq_false_of_isDigit (c : Char) (h : c.isDigit = true) :
    isPyWhitespace c = false := by
  simp only [isPyWhitespace, Bool.or_eq_false_iff, decide_eq_false_iff_not]
  and_intros <;> { intro hc; subst hc; exact absurd h (by decide) }

theorem pyStrip_of_digits (s : String) (h : s.toList.all Char.isDigit = true) :
    pyStrip s = s :=
  pyStrip_eq_self s fun c hc =>
    isPyWhitespace_eq_false_of_isDigit c (List.all_eq_true.mp h c hc)

theorem pyStrip_of_all_ws (s : String) (h : s.toList.all isPyWhitespace = true) :
    pyStrip s = "" := by
  unfold pyStrip
  rw [pyStripList_eq_nil s.toList (List.all_eq_true.mp h)]

theorem validateForm_ok_iff (raw : RawForm) (d : FormData) :
    validateForm raw = Except.ok d ↔
      1 ≤ (pyStrip raw.name).length ∧ (pyStrip raw.name).length ≤ 255 ∧
      isValidEmail (pyStrip raw.email) = true ∧
      numberPatternOk (pyStrip raw.number) = true ∧
      d = ⟨pyStrip raw.name, pyStrip raw.email, pyStrip raw.number⟩ := by
  obtain ⟨dn, de, dnum⟩ := d
  by_cases h1 : (pyStrip raw.name).length < 1 <;>
  by_cases h2 : (pyStrip raw.name).length > 255 <;>
  by_cases he : isValidEmail (pyStrip raw.email) = true <;>
  by_cases hn : numberPatternOk (pyStrip raw.number) = true <;>
  simp [validateForm, h1, h2, he, hn, FormData.mk.injEq, eq_comm]
  exact ⟨fun ⟨ha, hb, hc⟩ => ⟨by omega, by omega, ha, hb, hc⟩,
         fun ⟨h3, h4, ha, hb, hc⟩ => ⟨ha, hb, hc⟩⟩

theorem validateForm_error_of_bad_number (raw : RawForm)
    (h : numberPatternOk (pyStrip raw.number) = false) :
    ∃ errs, validateForm raw = Except.error errs := by
  by_cases h1 : (pyStrip raw.name).length < 1 <;>
  by_cases h2 : (pyStrip raw.name).length > 255 <;>
  by_cases he : isValidEmail (pyStrip raw.email) = true <;>
  simp [validateForm, h1, h2, he, h]

/-! ## Claim theorems -/

/-- C1: for every input whose name is 1-255 code points after stripping
leading/trailing whitespace, whose email is syntactically valid, and whose
number is exactly 10 digits, POST /submit-form (with the storage layer not
failing) returns status 201 with body message "Form submitted successfully!"
and `record_id` equal to the storage-assigned next identifier — a positive
integer carried by no already-stored row; the next identifier strictly
increases, so no later successful submission can return the same identifier,
and table well-formedness is preserved. -/
theorem submit_form_valid_input_201 (raw : RawForm) (db0 : DB)
    (hname1 : 1 ≤ (pyStrip raw.name).length)
    (hname2 : (pyStrip raw.name).length ≤ 255)
    (hemail : isValidEmail (pyStrip raw.email) = true)
    (hnum : numberPatternOk raw.number = true)
    (hwf : db0.wf) :
    (submit_form raw DbFailure.ok db0).response =
      ⟨201, Body.submitOk "Form submitted successfully!" db0.nextId⟩ ∧
    0 < db0.nextId ∧
    (∀ r ∈ db0.rows, r.id ≠ db0.nextId) ∧
    (submit_form raw DbFailure.ok db0).db.nextId = db0.nextId + 1 ∧
    (submit_form raw DbFailure.ok db0).db.wf := by
  have hdigits : raw.number.toList.all Char.isDigit = true := by
    simp only [numberPatternOk, Bool.and_eq_true] at hnum
    exact hnum.2
  have hstrip : pyStrip raw.number = raw.number := pyStrip_of_digits _ hdigits
  have hok : validateForm raw =
      Except.ok ⟨pyStrip raw.name, pyStrip raw.email, pyStrip raw.number⟩ :=
    (validateForm_ok_iff raw _).mpr
      ⟨hname1, hname2, hemail, by rw [hstrip]; exact hnum, rfl⟩
  obtain ⟨hpos, hlt⟩ := hwf
  refine ⟨?_, hpos, fun r hr => Nat.ne_of_lt (hlt r hr), ?_, ?_⟩
  · simp [submit_form, hok]
  · simp [submit_form, hok]
  · refine ⟨?_, ?_⟩
    · simp [submit_form, hok]
    · intro r hr
      simp [submit_form, hok] at hr ⊢
      rcases hr with hr | hr
      · exact Nat.lt_succ_of_lt (hlt r hr)
      · rw [hr]
        exact Nat.lt_succ_self _

/-- Witness for C1: the concrete valid submission of the spec's scenario 1
against the freshly bootstrapped table. -/
theorem submit_form_valid_input_201_witness :
    (submit_form ⟨"Ada Lovelace", "ada@example.com", "5551234567"⟩
        DbFailure.ok DB.initial).response =
      ⟨201, Body.submitOk "Form submitted successfully!" DB.initial.nextId⟩ ∧
    0 < DB.initial.nextId ∧
    (∀ r ∈ DB.initial.rows, r.id ≠ DB.initial.nextId) ∧
    (submit_form ⟨"Ada Lovelace", "ada@example.com", "5551234567"⟩
        DbFailure.ok DB.initial).db.nextId = DB.initial.nextId + 1 ∧
    (submit_form ⟨"Ada Lovelace", "ada@example.com", "5551234567"⟩
        DbFailure.ok DB.initial).db.wf :=
  submit_form_valid_input_201 ⟨"Ada Lovelace", "ada@example.com", "5551234567"⟩
    DB.initial (by decide) (by decide) (by decide) (by decide)
    ⟨Nat.le_refl 1, fun r hr => absurd hr (by simp [DB.initial])⟩

/-- C2 counterexample: the input `{"name": "Alan Turing", "email":
"alan@example.org", "number": " 5551234567 "}` has a number field containing
non-digit characters (two spaces) and of length 12 ≠ 10, yet — because
`str_strip_whitespace=True` strips the field before the pattern check —
POST /submit-form accepts it with status 201 and inserts a row, refuting the
claim as stated. -/
theorem submit_form_ws_number_accepted_cex :
    (" 5551234567 " : String).toList.any (fun c => !c.isDigit) = true ∧
    (" 5551234567 " : String).length ≠ 10 ∧
    (submit_form ⟨"Alan Turing", "alan@example.org", " 5551234567 "⟩
        DbFailure.ok DB.initial).response.status = 201 ∧
    (submit_form ⟨"Alan Turing", "alan@example.org", " 5551234567 "⟩
        DbFailure.ok DB.initial).db.rows ≠ DB.initial.rows :=
  ⟨by decide, by decide, rfl, by decide⟩

/-- C2 (amended): for every input whose number field, after stripping leading
and trailing whitespace, contains a non-digit character or has length other
than 10, the submission is rejected with a 422 validation error and no row
is inserted — the stored table is unchanged. -/
theorem submit_form_bad_number_rejected (raw : RawForm) (fail : DbFailure)
    (db0 : DB) (h : numberPatternOk (pyStrip raw.number) = false) :
    (submit_form raw fail db0).response.status = 422 ∧
    (submit_form raw fail db0).db = db0 := by
  obtain ⟨errs, herr⟩ := validateForm_error_of_bad_number raw h
  simp [submit_form, herr]

/-- Witness for the amended C2: the spec's scenario 4, a 5-digit number. -/
theorem submit_form_bad_number_rejected_witness :
    (submit_form ⟨"Bob", "bob@example.com", "12345"⟩
        DbFailure.ok DB.initial).response.status = 422 ∧
    (submit_form ⟨"Bob", "bob@example.com", "12345"⟩
        DbFailure.ok DB.initial).db = DB.initial :=
  submit_form_bad_number_rejected ⟨"Bob", "bob@example.com", "12345"⟩
    DbFailure.ok DB.initial (by decide)

/-- C3: the name field is accepted only if, after stripping leading and
trailing whitespace, its length is at least 1 and at most 255; and every
input whose name is empty or consists only of whitespace is rejected with a
422 validation error and no row is inserted. -/
theorem name_length_validation (raw : RawForm) (fail : DbFailure) (db0 : DB) :
    (∀ d, validateForm raw = Except.ok d →
      1 ≤ (pyStrip raw.name).length ∧ (pyStrip raw.name).length ≤ 255) ∧
    (raw.name.toList.all isPyWhitespace = true →
      (submit_form raw fail db0).response.status = 422 ∧
      (submit_form raw fail db0).db = db0) := by
  constructor
  · intro d hd
    have h := (validateForm_ok_iff raw d).mp hd
    exact ⟨h.1, h.2.1⟩
  · intro hws
    have hstrip : pyStrip raw.name = "" := pyStrip_of_all_ws _ hws
    have herr : ∃ errs, validateForm raw = Except.error errs := by
      by_cases he : isValidEmail (pyStrip raw.email) = true <;>
      by_cases hn : numberPatternOk (pyStrip raw.number) = true <;>
      simp [validateForm, hstrip, he, hn]
    obtain ⟨errs, herr⟩ := herr
    simp [submit_form, herr]

/-- Witness for C3: an all-whitespace name (the spec's scenario 2 with
whitespace instead of the empty string) is rejected and inserts nothing. -/
theorem name_length_validation_witness :
    (submit_form ⟨"   ", "carol@example.com", "5559876543"⟩
        DbFailure.ok DB.initial).response.status = 422 ∧
    (submit_form ⟨"   ", "carol@example.com", "5559876543"⟩
        DbFailure.ok DB.initial).db = DB.initial :=
  (name_length_validation ⟨"   ", "carol@example.com", "5559876543"⟩
    DbFailure.ok DB.initial).2 (by decide)

/-- C4 counterexample: a handler body that raises without logging.  `get_db`
rolls back and closes the session, but the request's log stays empty — no
failure is logged — and the exception is caught by the bare `except` and
never re-raised, so the error is silently swallowed, refuting the claim. -/
theorem get_db_silent_swallow_cex :
    (get_db (fun s => ⟨s, (Except.error (Exn.other "boom") : Except Exn Unit), []⟩)
        DB.initial).rolledBack = true ∧
    (get_db (fun s => ⟨s, (Except.error (Exn.other "boom") : Except Exn Unit), []⟩)
        DB.initial).closed = true ∧
    (get_db (fun s => ⟨s, (Except.error (Exn.other "boom") : Except Exn Unit), []⟩)
        DB.initial).log = [] ∧
    (get_db (fun s => ⟨s, (Except.error (Exn.other "boom") : Except Exn Unit), []⟩)
        DB.initial).caughtNotReraised = some (Exn.other "boom") :=
  ⟨rfl, rfl, rfl, rfl⟩

/-- C4 (amended): for every request that uses the session provider: if the
handler body completes without raising, the session is committed; if the
handler body raises, the session is rolled back — but the provider writes no
log line of its own (the request's log is exactly what the handler wrote)
and the exception is caught without being re-raised; and on every exit route
the session is closed. -/
theorem get_db_commit_rollback_close {α : Type}
    (body : SessionState → BodyResult α) (db0 : DB) :
    (get_db body db0).closed = true ∧
    (get_db body db0).log = (body ⟨db0, []⟩).logs ∧
    (∀ v, (body ⟨db0, []⟩).outcome = Except.ok v →
      (get_db body db0).finalCommit = true ∧
      (get_db body db0).db = commitSession (body ⟨db0, []⟩).sess ∧
      (get_db body db0).value = some v ∧
      (get_db body db0).caughtNotReraised = none) ∧
    (∀ e, (body ⟨db0, []⟩).outcome = Except.error e →
      (get_db body db0).rolledBack = true ∧
      (get_db body db0).db = (body ⟨db0, []⟩).sess.committed ∧
      (get_db body db0).value = none ∧
      (get_db body db0).caughtNotReraised = some e) := by
  cases hout : (body ⟨db0, []⟩).outcome with
  | ok v => simp [get_db, hout]
  | error e => simp [get_db, hout]

/-- Witness for the amended C4: a body returning 7 with one log line. -/
theorem get_db_commit_rollback_close_witness :
    (get_db (fun s => ⟨s, (Except.ok 7 : Except Exn Nat), ["handler log"]⟩)
        DB.initial).finalCommit = true ∧
    (get_db (fun s => ⟨s, (Except.ok 7 : Except Exn Nat), ["handler log"]⟩)
        DB.initial).value = some 7 :=
  ⟨((get_db_commit_rollback_close
      (fun s => ⟨s, (Except.ok 7 : Except Exn Nat), ["handler log"]⟩)
      DB.initial).2.2.1 7 rfl).1,
   ((get_db_commit_rollback_close
      (fun s => ⟨s, (Except.ok 7 : Except Exn Nat), ["handler log"]⟩)
      DB.initial).2.2.1 7 rfl).2.2.1⟩

/-- C5 counterexample: when session acquisition itself raises, GET /health
does not return 503 with "Service unavailable": the handler's `except`
branch is unreachable (its `try` body is a bare return that cannot raise),
so the failure surfaces as an unhandled 500 error instead. -/
theorem health_check_not_503_cex :
    (health_check (some "connection refused") DB.initial).response.status = 500 ∧
    (health_check (some "connection refused") DB.initial).response.status ≠ 503 ∧
    (health_check (some "connection refused") DB.initial).response.body ≠
      Body.detail "Service unavailable" :=
  ⟨rfl, by decide, by decide⟩

/-- C5 (amended): GET /health returns 200 with body {"status": "healthy"}
whenever session acquisition succeeds; if acquisition itself raises, the
failure surfaces as an unhandled 500 error, never as the handler's dead
503 branch; and the endpoint never touches the table. -/
theorem health_check_outcomes (acq : Option String) (db0 : DB) :
    (acq = none → (health_check acq db0).response = ⟨200, Body.health "healthy"⟩) ∧
    (∀ msg, acq = some msg →
      (health_check acq db0).response = ⟨500, Body.unhandled msg⟩ ∧
      (health_check acq db0).response.body ≠ Body.detail "Service unavailable") ∧
    (health_check acq db0).db = db0 := by
  cases acq <;> simp [health_check]

/-- Witness for the amended C5: acquisition succeeds, 200 healthy. -/
theorem health_check_outcomes_witness :
    (health_check none DB.initial).response = ⟨200, Body.health "healthy"⟩ :=
  (health_check_outcomes none DB.initial).1 rfl

/-- C6 counterexample: with DATABASE_URL present in the environment but set
to the empty string, the check `if not DATABASE_URL` still raises — the
variable being present does not make the check pass, refuting the claim's
"if it is present, this check passes". -/
theorem startup_present_empty_cex :
    (fun k => if k = "DATABASE_URL" then some "" else none) "DATABASE_URL" ≠ none ∧
    startup (fun k => if k = "DATABASE_URL" then some "" else none) =
      Except.error "DATABASE_URL environment variable is missing" :=
  ⟨by decide, rfl⟩

/-- C6 (amended): if DATABASE_URL is absent from the environment at startup,
module initialization raises before the application is constructed, so the
process refuses to start (startup yields an error and nothing is built, so
no listening port is ever bound); if it is present and non-empty, the check
passes. -/
theorem startup_requires_database_url (env : String → Option String) :
    (env "DATABASE_URL" = none →
      startup env = Except.error "DATABASE_URL environment variable is missing") ∧
    (∀ url, env "DATABASE_URL" = some url → url ≠ "" →
      startup env = Except.ok url) := by
  constructor
  · intro h
    simp [startup, databaseUrlCheck, h]
  · intro url h hne
    simp [startup, databaseUrlCheck, h, hne]

/-- Witness for the amended C6: an empty environment fails startup; an
environment carrying a non-empty connection string passes it. -/
theorem startup_requires_database_url_witness :
    startup (fun _ => none) =
      Except.error "DATABASE_URL environment variable is missing" ∧
    startup (fun k => if k = "DATABASE_URL" then some "postgres:db" else none) =
      Except.ok "postgres:db" :=
  ⟨(startup_requires_database_url (fun _ => none)).1 rfl,
   (startup_requires_database_url
      (fun k => if k = "DATABASE_URL" then some "postgres:db" else none)).2
      "postgres:db" rfl (by decide)⟩

/-- C7 (code bug): at the failing input — the valid submission with name
"Eve", email "eve@example.net", number "5550002222", and a SQLAlchemy
failure "disk full" injected at `db.commit` — the handler logs the
underlying error (which never appears in any response) and raises
`HTTPException(500, dbErrorDetail)`, and the session rollback happens
before any response is produced; but `get_db`'s bare `except` swallows that
exception without re-raising, so the route yields no response object and
the caller receives the framework's plain 500 server error, whose body is
not the generic detail the claim, the spec, and the handler itself intend:
the exact detail "Database error occurred while submitting the form" never
reaches the caller. -/
theorem submit_form_db_error_detail_lost :
    ("Database error: " ++ "disk full") ∈
      (submit_form ⟨"Eve", "eve@example.net", "5550002222"⟩
        (DbFailure.atCommit "disk full") DB.initial).log ∧
    Ev.raiseHTTP 500 dbErrorDetail ∈
      (submit_form ⟨"Eve", "eve@example.net", "5550002222"⟩
        (DbFailure.atCommit "disk full") DB.initial).events ∧
    rollbackBeforeRespond
      (submit_form ⟨"Eve", "eve@example.net", "5550002222"⟩
        (DbFailure.atCommit "disk full") DB.initial).events = true ∧
    (submit_form ⟨"Eve", "eve@example.net", "5550002222"⟩
        (DbFailure.atCommit "disk full") DB.initial).response.status = 500 ∧
    (submit_form ⟨"Eve", "eve@example.net", "5550002222"⟩
        (DbFailure.atCommit "disk full") DB.initial).response.body ≠
      Body.detail dbErrorDetail :=
  ⟨by decide, by decide, rfl, rfl, by decide⟩

/-- C8: no operation of the system updates or deletes an existing stored
record: for every request handled by any endpoint, every row present before
the request is still present, in place and unchanged, afterwards; and a
POST /submit-form that responds 201 appends exactly one new row. -/
theorem rows_append_only (raw : RawForm) (fail : DbFailure) (acq : Option String)
    (db0 : DB) :
    preservesRows db0 (submit_form raw fail db0).db ∧
    preservesRows db0 (root db0).db ∧
    preservesRows db0 (health_check acq db0).db ∧
    ((submit_form raw fail db0).response.status = 201 →
      ∃ r, (submit_form raw fail db0).db.rows = db0.rows ++ [r]) := by
  refine ⟨?_, ⟨[], by simp [root]⟩, ?_, ?_⟩
  · cases hv : validateForm raw with
    | error errs => exact ⟨[], by simp [submit_form, hv]⟩
    | ok d =>
      cases fail with
      | ok =>
        exact ⟨[⟨db0.nextId, d.name, d.email, d.number⟩], by simp [submit_form, hv]⟩
      | atConstruct m => exact ⟨[], by simp [submit_form, hv]⟩
      | atAdd m => exact ⟨[], by simp [submit_form, hv]⟩
      | atCommit m => exact ⟨[], by simp [submit_form, hv]⟩
      | atRefresh m =>
        exact ⟨[⟨db0.nextId, d.name, d.email, d.number⟩], by simp [submit_form, hv]⟩
  · cases acq <;> exact ⟨[], by simp [health_check]⟩
  · intro h201
    cases hv : validateForm raw with
    | error errs => simp [submit_form, hv] at h201
    | ok d =>
      cases fail with
      | ok =>
        exact ⟨⟨db0.nextId, d.name, d.email, d.number⟩, by simp [submit_form, hv]⟩
      | atConstruct m => simp [submit_form, hv] at h201
      | atAdd m => simp [submit_form, hv] at h201
      | atCommit m => simp [submit_form, hv] at h201
      | atRefresh m => simp [submit_form, hv] at h201

/-- Witness for C8: a successful concrete submission appends one row. -/
theorem rows_append_only_witness :
    ∃ r, (submit_form ⟨"Frank", "frank@example.com", "5553334444"⟩
        DbFailure.ok DB.initial).db.rows = DB.initial.rows ++ [r] :=
  (rows_append_only ⟨"Frank", "frank@example.com", "5553334444"⟩
    DbFailure.ok none DB.initial).2.2.2 rfl

/-- A row built from any validated submission satisfies the table's content
invariant, whatever identifier storage assigns to it. -/
theorem rowOk_of_valid (raw : RawForm) (d : FormData)
    (hv : validateForm raw = Except.ok d) (i : Nat) :
    rowOk ⟨i, d.name, d.email, d.number⟩ := by
  obtain ⟨h1, h2, he, hn, hd⟩ := (validateForm_ok_iff raw d).mp hv
  subst hd
  simp only [numberPatternOk, Bool.and_eq_true, decide_eq_true_eq] at hn
  refine ⟨?_, h2, hn.1, hn.2⟩
  intro h0
  dsimp only at h0
  rw [h0] at h1
  exact absurd h1 (by decide)

/-- C9: every row ever written to the grandeur table has a non-empty name of
at most 255 characters and a phone_number of exactly 10 digit characters
(the email column is a total `String` in this embedding, hence non-null):
the submit handler, the only writer, copies its fields verbatim from a value
that passed the validation schema, so the invariant holds of the
bootstrapped table and is preserved by every endpoint. -/
theorem table_row_invariant (raw : RawForm) (fail : DbFailure) (acq : Option String)
    (db0 : DB) (hinv : db0.inv) :
    DB.initial.inv ∧
    (submit_form raw fail db0).db.inv ∧
    (root db0).db.inv ∧
    (health_check acq db0).db.inv := by
  refine ⟨fun r hr => absurd hr (by simp [DB.initial]), ?_, hinv, ?_⟩
  · cases hv : validateForm raw with
    | error errs =>
      intro r hr
      exact hinv r (by simpa [submit_form, hv] using hr)
    | ok d =>
      have hrow := rowOk_of_valid raw d hv db0.nextId
      cases fail with
      | ok =>
        intro r hr
        rcases (by simpa [submit_form, hv] using hr :
            r ∈ db0.rows ∨ r = ⟨db0.nextId, d.name, d.email, d.number⟩) with h | h
        · exact hinv r h
        · rw [h]; exact hrow
      | atConstruct m =>
        intro r hr
        exact hinv r (by simpa [submit_form, hv] using hr)
      | atAdd m =>
        intro r hr
        exact hinv r (by simpa [submit_form, hv] using hr)
      | atCommit m =>
        intro r hr
        exact hinv r (by simpa [submit_form, hv] using hr)
      | atRefresh m =>
        intro r hr
        rcases (by simpa [submit_form, hv] using hr :
            r ∈ db0.rows ∨ r = ⟨db0.nextId, d.name, d.email, d.number⟩) with h | h
        · exact hinv r h
        · rw [h]; exact hrow
  · cases acq <;> exact hinv

/-- Witness for C9: the invariant after one concrete submission into the
bootstrapped table. -/
theorem table_row_invariant_witness :
    DB.initial.inv ∧
    (submit_form ⟨"Gus", "gus@example.com", "5556667777"⟩
        DbFailure.ok DB.initial).db.inv ∧
    (root DB.initial).db.inv ∧
    (health_check none DB.initial).db.inv :=
  table_row_invariant ⟨"Gus", "gus@example.com", "5556667777"⟩ DbFailure.ok none
    DB.initial (fun r hr => absurd hr (by simp [DB.initial]))

/-- C10: leading and trailing whitespace is stripped from every string field
of the submission before validation — name, email and number alike —
validation depends only on the stripped field values and the accepted value
carries exactly the stripped strings; concretely, an input whose raw number
field " 5550001111 " is not 10 consecutive digits is nevertheless accepted
with 201, and the stored phone_number is the stripped 10-digit string. -/
theorem strip_before_validation (raw raw2 : RawForm)
    (hn : pyStrip raw.name = pyStrip raw2.name)
    (he : pyStrip raw.email = pyStrip raw2.email)
    (hnum : pyStrip raw.number = pyStrip raw2.number) :
    validateForm raw = validateForm raw2 ∧
    (∀ d, validateForm raw = Except.ok d →
      d = ⟨pyStrip raw.name, pyStrip raw.email, pyStrip raw.number⟩) ∧
    (numberPatternOk " 5550001111 " = false ∧
     (submit_form ⟨"Grace Hopper", "grace@example.com", " 5550001111 "⟩
        DbFailure.ok DB.initial).response.status = 201 ∧
     (submit_form ⟨"Grace Hopper", "grace@example.com", " 5550001111 "⟩
        DbFailure.ok DB.initial).db.rows =
       [⟨1, "Grace Hopper", "grace@example.com", "5550001111"⟩]) := by
  refine ⟨?_, ?_, by decide, rfl, by decide⟩
  · simp [validateForm, hn, he, hnum]
  · intro d hd
    exact ((validateForm_ok_iff raw d).mp hd).2.2.2.2

/-- Witness for C10: validation of a raw form with whitespace-padded fields
coincides with validation of its stripped form. -/
theorem strip_before_validation_witness :
    validateForm ⟨" Hedy Lamarr ", " hedy@example.com ", " 5558889999 "⟩ =
      validateForm ⟨"Hedy Lamarr", "hedy@example.com", "5558889999"⟩ :=
  (strip_before_validation ⟨" Hedy Lamarr ", " hedy@example.com ", " 5558889999 "⟩
    ⟨"Hedy Lamarr", "hedy@example.com", "5558889999"⟩
    (by decide) (by decide) (by decide)).1

end GrandServer
